import Mathlib

set_option maxRecDepth 100000
set_option maxHeartbeats 1600000

/-!
Shallow embedding of the SIP/RTP core of the `ravoxai` repository
(`rtp_voice_client.py`, `auth_sip_client.py`), together with the
standard-library semantics those files rely on (`hashlib.md5`,
`struct.pack`, `audioop.lin2ulaw`/`ulaw2lin`, Python `int()` and string
truthiness).  Machine integers are modelled as `Nat`/`Int` with explicit
reduction modulo `2^w` where the source wraps; fallible operations
(`struct.pack` range errors, `int()` parse errors) return `Option`.
-/

namespace Ravox

/-! ### MD5 (semantics of Python's `hashlib.md5(...).hexdigest()`)

Faithful RFC 1321 MD5 over byte lists, all words reduced mod 2^32. -/

def M32 : Nat := 4294967296

def add32 (a b : Nat) : Nat := (a + b) % M32

def bnot32 (x : Nat) : Nat := Nat.xor x 4294967295

def rotl32 (x n : Nat) : Nat := ((x <<< n) % M32) + (x >>> (32 - n))

def md5K : List Nat :=
  [0xd76aa478, 0xe8c7b756, 0x242070db, 0xc1bdceee,
   0xf57c0faf, 0x4787c62a, 0xa8304613, 0xfd469501,
   0x698098d8, 0x8b44f7af, 0xffff5bb1, 0x895cd7be,
   0x6b901122, 0xfd987193, 0xa679438e, 0x49b40821,
   0xf61e2562, 0xc040b340, 0x265e5a51, 0xe9b6c7aa,
   0xd62f105d, 0x02441453, 0xd8a1e681, 0xe7d3fbc8,
   0x21e1cde6, 0xc33707d6, 0xf4d50d87, 0x455a14ed,
   0xa9e3e905, 0xfcefa3f8, 0x676f02d9, 0x8d2a4c8a,
   0xfffa3942, 0x8771f681, 0x6d9d6122, 0xfde5380c,
   0xa4beea44, 0x4bdecfa9, 0xf6bb4b60, 0xbebfbc70,
   0x289b7ec6, 0xeaa127fa, 0xd4ef3085, 0x04881d05,
   0xd9d4d039, 0xe6db99e5, 0x1fa27cf8, 0xc4ac5665,
   0xf4292244, 0x432aff97, 0xab9423a7, 0xfc93a039,
   0x655b59c3, 0x8f0ccc92, 0xffeff47d, 0x85845dd1,
   0x6fa87e4f, 0xfe2ce6e0, 0xa3014314, 0x4e0811a1,
   0xf7537e82, 0xbd3af235, 0x2ad7d2bb, 0xeb86d391]

def md5S : List Nat :=
  [7, 12, 17, 22, 7, 12, 17, 22, 7, 12, 17, 22, 7, 12, 17, 22,
   5, 9, 14, 20, 5, 9, 14, 20, 5, 9, 14, 20, 5, 9, 14, 20,
   4, 11, 16, 23, 4, 11, 16, 23, 4, 11, 16, 23, 4, 11, 16, 23,
   6, 10, 15, 21, 6, 10, 15, 21, 6, 10, 15, 21, 6, 10, 15, 21]

def md5F (i b c d : Nat) : Nat :=
  if i < 16 then Nat.lor (Nat.land b c) (Nat.land (bnot32 b) d)
  else if i < 32 then Nat.lor (Nat.land d b) (Nat.land (bnot32 d) c)
  else if i < 48 then Nat.xor (Nat.xor b c) d
  else Nat.xor c (Nat.lor b (bnot32 d))

def md5G (i : Nat) : Nat :=
  if i < 16 then i
  else if i < 32 then (5 * i + 1) % 16
  else if i < 48 then (3 * i + 5) % 16
  else (7 * i) % 16

/-- Little-endian 32-bit word from four bytes of a block at word index `j`. -/
def blockWord (block : List Nat) (j : Nat) : Nat :=
  block.getD (4 * j) 0 + (block.getD (4 * j + 1) 0) <<< 8 +
    (block.getD (4 * j + 2) 0) <<< 16 + (block.getD (4 * j + 3) 0) <<< 24

def md5Round (block : List Nat) (st : Nat × Nat × Nat × Nat) (i : Nat) :
    Nat × Nat × Nat × Nat :=
  let (a, b, c, d) := st
  let f := add32 (add32 (add32 a (md5F i b c d)) (md5K.getD i 0))
    (blockWord block (md5G i))
  (d, add32 b (rotl32 f (md5S.getD i 0)), b, c)

def md5Block (st : Nat × Nat × Nat × Nat) (block : List Nat) :
    Nat × Nat × Nat × Nat :=
  let (a0, b0, c0, d0) := st
  let (a, b, c, d) := (List.range 64).foldl (md5Round block) (a0, b0, c0, d0)
  (add32 a0 a, add32 b0 b, add32 c0 c, add32 d0 d)

/-- Eight little-endian bytes of the 64-bit message bit length. -/
def lenBytes (len : Nat) : List Nat :=
  let bits := (8 * len) % (2 ^ 64)
  (List.range 8).map fun i => (bits >>> (8 * i)) % 256

def md5Pad (msg : List Nat) : List Nat :=
  msg ++ [0x80] ++ List.replicate ((119 - msg.length % 64) % 64) 0 ++
    lenBytes msg.length

/-- Four little-endian bytes of a 32-bit word. -/
def wordBytes (w : Nat) : List Nat :=
  [w % 256, (w >>> 8) % 256, (w >>> 16) % 256, (w >>> 24) % 256]

/-- MD5 digest (16 bytes) of a byte list. -/
def md5Bytes (msg : List Nat) : List Nat :=
  let padded := md5Pad msg
  let blocks := (List.range (padded.length / 64)).map fun i =>
    (padded.drop (64 * i)).take 64
  let (a, b, c, d) := blocks.foldl md5Block
    (0x67452301, 0xefcdab89, 0x98badcfe, 0x10325476)
  wordBytes a ++ wordBytes b ++ wordBytes c ++ wordBytes d

def hexDigit (n : Nat) : Char :=
  if n < 10 then Char.ofNat (48 + n) else Char.ofNat (87 + n)

def byteHex (b : Nat) : List Char := [hexDigit (b / 16), hexDigit (b % 16)]

/-- Bytes of a string under UTF-8; all strings hashed by this client are
ASCII, on which UTF-8 is the identity on code points. -/
def strBytes (s : String) : List Nat := s.data.map Char.toNat

/-- Semantics of `hashlib.md5(s.encode()).hexdigest()`. -/
def md5Hex (s : String) : String :=
  ⟨((md5Bytes (strBytes s)).map byteHex).flatten⟩

/-! ### WWW-Authenticate challenge parsing (`parse_auth_header`)

The source extracts each field with `re.search` over the header text:
`realm="([^"]*)"`, `nonce="([^"]*)"`, `opaque="([^"]*)"`,
`algorithm=([^,\s]*)`, `qop="([^"]*)"`; a field is present in the result
dict only when the regex matches. -/

/-- The `auth_info` dict: each key is present (`some`) only when its
regex matched.  `opq` embeds the `opaque` field. -/
structure AuthInfo where
  realm : Option String
  nonce : Option String
  opq : Option String
  algorithm : Option String
  qop : Option String
  deriving DecidableEq, Repr

/-- Leftmost occurrence of `key` in `s`; returns the remainder after it. -/
def subSearch (key : List Char) : List Char → Option (List Char)
  | [] => if key = [] then some [] else none
  | c :: rest =>
    if key.isPrefixOf (c :: rest) then some ((c :: rest).drop key.length)
    else subSearch key rest

/-- Semantics of `re.search(key + '="([^"]*)"', s)`: capture between the first
`key="` and the next `"`; fails only when no closing quote follows
(exactly `re.search`'s behaviour, see the leftmost-match analysis in the
repository notes: a later full match would itself supply that quote). -/
def extractQuoted (key : String) (s : List Char) : Option String :=
  match subSearch (key.data ++ ['=', '"']) s with
  | none => none
  | some rest =>
    if (rest.dropWhile (· ≠ '"')) = [] then none
    else some ⟨rest.takeWhile (· ≠ '"')⟩

def isPyWhitespace (c : Char) : Bool :=
  c = ' ' || c = '\t' || c = '\n' || c = '\r' || c = '\x0b' || c = '\x0c'

/-- Semantics of `re.search('algorithm=([^,\s]*)', s)`: capture after the first
`algorithm=` up to a comma or whitespace (possibly empty). -/
def extractBare (key : String) (s : List Char) : Option String :=
  match subSearch (key.data ++ ['=']) s with
  | none => none
  | some rest => some ⟨rest.takeWhile (fun c => c ≠ ',' && !isPyWhitespace c)⟩

/-- Embedding of `parse_auth_header` from `rtp_voice_client.py` (identical in
`auth_sip_client.py`). -/
def parse_auth_header (h : String) : AuthInfo :=
  { realm := extractQuoted "realm" h.data
    nonce := extractQuoted "nonce" h.data
    opq := extractQuoted "opaque" h.data
    algorithm := extractBare "algorithm" h.data
    qop := extractQuoted "qop" h.data }

/-! ### Digest authenticator (`calculate_digest_response`)

Identical bodies in `rtp_voice_client.py` (lines 278-300) and
`auth_sip_client.py` (lines 54-76).  The client nonce is
`str(random.randint(100000, 999999))` in the source; the random draw is
a parameter `cnonce` here. -/

/-- Embedding of `calculate_digest_response(auth_info, method, uri)`; returns
`(response, nc, cnonce)` exactly as the source does. -/
def calculate_digest_response (username password : String) (info : AuthInfo)
    (method uri cnonce : String) : String × Option String × Option String :=
  let realm := info.realm.getD ""
  let nonce := info.nonce.getD ""
  let qop := info.qop.getD ""
  let ha1 := md5Hex (username ++ ":" ++ realm ++ ":" ++ password)
  let ha2 := md5Hex (method ++ ":" ++ uri)
  if qop ≠ "" then
    let nc := "00000001"
    (md5Hex (ha1 ++ ":" ++ nonce ++ ":" ++ nc ++ ":" ++ cnonce ++ ":" ++
      qop ++ ":" ++ ha2), some nc, some cnonce)
  else
    (md5Hex (ha1 ++ ":" ++ nonce ++ ":" ++ ha2), none, none)

/-! ### RTP packetizer (`RTPAudioStreamer`)

`struct.pack('!BBHII', ...)` raises `struct.error` when an argument is
out of range for its format code; modelled as `Option`.  The
`timestamp` field of the streamer state is a plain Python integer: the
source updates it with `self.timestamp += len(payload)` and never
reduces it, so it is an unbounded `Nat` here. -/

/-- Big-endian bytes of a 16-bit value. -/
def be16 (n : Nat) : List Nat := [n >>> 8, n % 256]

/-- Big-endian bytes of a 32-bit value. -/
def be32 (n : Nat) : List Nat :=
  [n >>> 24, (n >>> 16) % 256, (n >>> 8) % 256, n % 256]

/-- Semantics of `struct.pack('!BBHII', b0, b1, h, i1, i2)`: `none` models the
`struct.error` raised when an argument exceeds its format's range. -/
def packBBHII (b0 b1 h i1 i2 : Nat) : Option (List Nat) :=
  if b0 < 256 && b1 < 256 && h < 65536 && i1 < 4294967296 &&
      i2 < 4294967296 then
    some ([b0, b1] ++ be16 h ++ be32 i1 ++ be32 i2)
  else none

/-- Mutable counters of `RTPAudioStreamer` (`sequence_number`,
`timestamp`, `ssrc`), each seeded by `random.randint` in `__init__`. -/
structure RTPState where
  sequence_number : Nat
  timestamp : Nat
  ssrc : Nat
  deriving DecidableEq, Repr

/-- Embedding of `create_rtp_packet(payload)`: builds the 12-byte header, then
advances `sequence_number` mod 65536 and adds `len(payload)` to
`timestamp` (no reduction).  `none` models the propagated
`struct.error`, on which the state is not updated. -/
def create_rtp_packet (st : RTPState) (payload : List Nat) :
    Option (List Nat × RTPState) :=
  let version := 2
  let padding := 0
  let extension := 0
  let cc := 0
  let marker := 0
  let pt := 0
  match packBBHII
      (Nat.lor (Nat.lor (Nat.lor (version <<< 6) (padding <<< 5))
        (extension <<< 4)) cc)
      (Nat.lor (marker <<< 7) pt)
      st.sequence_number st.timestamp st.ssrc with
  | none => none
  | some header =>
    some (header ++ payload,
      { st with
        sequence_number := (st.sequence_number + 1) % 65536
        timestamp := st.timestamp + payload.length })

/-- The packetization loop of `stream_audio_file` threaded over a chunk
list: `none` as soon as one `create_rtp_packet` raises. -/
def sendPackets (st : RTPState) : List (List Nat) → Option RTPState
  | [] => some st
  | c :: cs =>
    match create_rtp_packet st c with
    | none => none
    | some (_, st') => sendPackets st' cs

/-! ### G.711 μ-law (`convert_to_ulaw`)

The primary path calls the CPython standard library's
`audioop.lin2ulaw(data, 2)`, whose per-sample kernel is
`st_14linear2ulaw` (Modules/audioop.c, CLIP 8159, BIAS 0x84): embedded
below.  `audioop.lin2ulaw` raises only on an odd byte count ("not a
whole number of frames"), in which case the source's `except` branch
runs its hand-written fallback loop, also embedded.  The standard
decoder `audioop.ulaw2lin` kernel is `st_ulaw2linear16`. -/

def segUend : List Nat := [0x3F, 0x7F, 0xFF, 0x1FF, 0x3FF, 0x7FF, 0xFFF, 0x1FFF]

/-- Semantics of `search(val, seg_uend, 8)`: least index whose entry is ≥ `val`,
else 8. -/
def searchSeg (val : Nat) : Nat :=
  ((segUend.findIdx? (fun t => val ≤ t)).getD 8)

/-- Body of CPython `st_14linear2ulaw` after the initial shift: sign
split with the wire-complement mask, CLIP to 8159, BIAS `0x84 >> 2`,
segment lookup, mantissa extraction, complement. -/
def st14core (pcm0 : Int) : Nat :=
  let pair : Int × Nat := if pcm0 < 0 then (-pcm0, 0x7F) else (pcm0, 0xFF)
  let pcmClip : Int := min pair.1 8159
  let pcmB : Nat := pcmClip.toNat + 33
  let seg := searchSeg pcmB
  if 8 ≤ seg then Nat.xor 0x7F pair.2
  else Nat.xor (Nat.lor (seg <<< 4) ((pcmB >>> (seg + 1)) &&& 0xF)) pair.2

/-- CPython `st_14linear2ulaw` applied to a 16-bit sample (the `>> 2`
is the arithmetic shift `GETSAMPLE32(2, cp, i) >> 18`, i.e. floor
division by 4). -/
def st_14linear2ulaw (sample : Int) : Nat :=
  st14core (Int.fdiv sample 4)

/-- CPython `st_ulaw2linear16`, the standard μ-law decoder. -/
def st_ulaw2linear16 (u : Nat) : Int :=
  let uval := Nat.xor (u % 256) 0xFF
  let t : Nat := (((uval &&& 0xF) <<< 3) + 0x84) <<< ((uval >>> 4) &&& 7)
  if uval &&& 0x80 ≠ 0 then (0x84 : Int) - (t : Int) else (t : Int) - 0x84

/-- The magnitude half of `st14core`: the uncomplemented code byte for
a nonnegative 14-bit magnitude (CLIP, BIAS, segment, mantissa); the
wire byte is this xor-ed with the sign mask. -/
def encMag (m : Nat) : Nat :=
  let v := min m 8159 + 33
  let seg := searchSeg v
  if 8 ≤ seg then 0x7F
  else Nat.lor (seg <<< 4) ((v >>> (seg + 1)) &&& 0xF)

/-- The magnitude decoded from an uncomplemented code byte, the
`Nat`-valued mirror of `st_ulaw2linear16`. -/
def decMag (c : Nat) : Nat :=
  ((((c &&& 0xF) <<< 3) + 0x84) <<< ((c >>> 4) &&& 7)) - 0x84

/-- Semantics of `struct.unpack('<h', ...)` / audioop `GETINT16`: a signed
little-endian 16-bit sample from two bytes. -/
def leInt16 (b0 b1 : Nat) : Int :=
  let v := b0 % 256 + 256 * (b1 % 256)
  if v < 32768 then (v : Int) else (v : Int) - 65536

/-- Consecutive byte pairs (`for i in range(0, len, 2)` with the
`i + 1 < len` guard dropping a dangling final byte). -/
def pairsOf : List Nat → List (Nat × Nat)
  | b0 :: b1 :: rest => (b0, b1) :: pairsOf rest
  | _ => []

/-- The hand-written fallback encoder of `convert_to_ulaw`
(lines 68-95): no bias, magnitude clipped to 0x1FFF, segment found by
shifting `magnitude >> 5`, sign bit 0x80 for non-negative samples,
whole byte complemented. -/
def fallbackUlawByte (sample : Int) : Nat :=
  let sm : Nat × Nat :=
    if 0 ≤ sample then (0x80, sample.toNat) else (0, (-sample).toNat)
  let magnitude := min sm.2 0x1FFF
  let ts : Nat × Nat := (List.range 7).foldl
    (fun st _ => if st.1 ≠ 0 && st.2 < 7 then (st.1 >>> 1, st.2 + 1) else st)
    (magnitude >>> 5, 0)
  Nat.xor
    (Nat.lor (Nat.lor sm.1 (ts.2 <<< 4)) ((magnitude >>> (ts.2 + 1)) &&& 0xF))
    0xFF

/-- Embedding of `convert_to_ulaw(audio_data)`: `audioop.lin2ulaw(audio_data, 2)` on
an even byte count; its `audioop.error` on an odd count lands in the
fallback loop. -/
def convert_to_ulaw (d : List Nat) : List Nat :=
  if d.length % 2 = 0 then
    (pairsOf d).map fun p => st_14linear2ulaw (leInt16 p.1 p.2)
  else
    (pairsOf d).map fun p => fallbackUlawByte (leInt16 p.1 p.2)

/-! ### Chunking of the encoded payload (`stream_audio_file`, 117-123) -/

/-- Semantics of `if len(chunk) < chunk_size: chunk += b'\x7f' * (chunk_size - len(chunk))`. -/
def padChunk (c : List Nat) : List Nat :=
  if c.length < 160 then c ++ List.replicate (160 - c.length) 0x7f else c

/-- The chunks sent by `stream_audio_file`: 160-byte slices
(`for i in range(0, len(ulaw_audio), 160)`), last one padded. -/
def toChunks (ulaw : List Nat) : List (List Nat) :=
  (List.range ((ulaw.length + 159) / 160)).map fun i =>
    padChunk ((ulaw.drop (160 * i)).take 160)

/-! ### SDP generation and parsing -/

/-- Embedding of `create_sdp_body(local_ip)` (lines 242-258); the `random.randint`
draws for the `o=` line are the parameters `sessionId`, `ver`.  The
f-string uses bare `\n` line endings. -/
def create_sdp_body (localIp : String) (sessionId ver rtpPort : Nat) : String :=
  "v=0\no=- " ++ toString sessionId ++ " " ++ toString ver ++ " IN IP4 " ++
    localIp ++ "\ns=-\nc=IN IP4 " ++ localIp ++ "\nt=0 0\nm=audio " ++
    toString rtpPort ++ " RTP/AVP 0 8\na=rtpmap:0 PCMU/8000\na=rtpmap:8 PCMA/8000\na=sendrecv\na=ptime:20\n"

/-- Fueled worker for Python `str.split(sep)` with a nonempty
separator: leftmost, non-overlapping, keeping empty fields.  The fuel
(initially the input length) strictly dominates the characters still to
scan, so the `0` row is unreachable for a nonempty separator. -/
def pySplitAux (sep : List Char) : Nat → List Char → List Char →
    List (List Char)
  | _, [], acc => [acc.reverse]
  | 0, s, acc => [acc.reverse ++ s]
  | fuel + 1, c :: rest, acc =>
    if sep.isPrefixOf (c :: rest) then
      acc.reverse :: pySplitAux sep fuel ((c :: rest).drop sep.length) []
    else pySplitAux sep fuel rest (c :: acc)

/-- Python `s.split(sep)` over character lists. -/
def pySplit (s sep : List Char) : List (List Char) :=
  pySplitAux sep s.length s []

/-- Python `int(s)` digit scan: decimal digits with single underscores
between digits; `acc` is the value so far, `lastDigit` whether the
previous character was a digit. -/
def pyDigitsAux (acc : Nat) (lastDigit : Bool) : List Char → Option Nat
  | [] => if lastDigit then some acc else none
  | c :: rest =>
    if c.isDigit then pyDigitsAux (10 * acc + (c.toNat - 48)) true rest
    else if c = '_' && lastDigit then pyDigitsAux acc false rest
    else none

/-- Python `int(s)` on a string: optional surrounding whitespace,
optional sign, then digits; `none` models the `ValueError`. -/
def pyInt? (s : List Char) : Option Int :=
  let cs := ((s.dropWhile isPyWhitespace).reverse.dropWhile
    isPyWhitespace).reverse
  match cs with
  | '+' :: rest => (pyDigitsAux 0 false rest).map Int.ofNat
  | '-' :: rest => (pyDigitsAux 0 false rest).map fun n => -(n : Int)
  | _ => (pyDigitsAux 0 false cs).map Int.ofNat

/-- The header/body loop of `parse_sdp_response` (lines 356-362); a
`ValueError` from `int(parts[1])` propagates to the `except` clause,
which returns `(None, None)` and discards anything already found. -/
def sdpLoop : List (List Char) → Option (List Char) → Option Int →
    Option (List Char) × Option Int
  | [], ip, port => (ip, port)
  | line :: rest, ip, port =>
    if ("c=IN IP4 ".data).isPrefixOf line then
      sdpLoop rest (some ((pySplit line [' ']).getD 2 [])) port
    else if ("m=audio ".data).isPrefixOf line then
      let parts := pySplit line [' ']
      if 2 ≤ parts.length then
        match pyInt? (parts.getD 1 []) with
        | none => (none, none)
        | some v => sdpLoop rest ip (some v)
      else sdpLoop rest ip port
    else sdpLoop rest ip port

/-- Python `sep.join(parts)` over character lists. -/
def joinWith (sep : List Char) : List (List Char) → List Char
  | [] => []
  | [x] => x
  | x :: y :: rest => x ++ sep ++ joinWith sep (y :: rest)

/-- Embedding of `parse_sdp_response(response_text)` (lines 343-367):
`response_text.find('\r\n\r\n')` and the body is everything after the
first occurrence. -/
def parse_sdp_response (responseText : String) : Option String × Option Int :=
  match pySplit responseText.data ['\r', '\n', '\r', '\n'] with
  | [] => (none, none)
  | [_] => (none, none)
  | _ :: rest =>
    let sdpBody := joinWith ['\r', '\n', '\r', '\n'] rest
    let r := sdpLoop (pySplit sdpBody ['\r', '\n']) none none
    (r.1.map fun cs => ⟨cs⟩, r.2)

/-! ### SIP dialog engine (`VoiceRTPSIPClient`) -/

/-- Python string truthiness for `auth_info.get(k)` /
`auth_info.get(k, '')`: falsy when absent or empty. -/
def truthyOpt (o : Option String) : Bool := !(o.getD "").data.isEmpty

/-- Python truthiness of the parsed port (`None` and `0` falsy). -/
def truthyPort (o : Option Int) : Bool := o.getD 0 != 0

/-- Per-dialog identifiers of `VoiceRTPSIPClient.__init__`
(lines 154-160); the `random.randint`/hostname draws are frozen into
the fields. -/
structure ClientState where
  server_host : String
  username : String
  password : String
  local_port : Nat
  rtp_port : Nat
  call_id : String
  tag : String
  branch : String
  cseq : Nat
  deriving DecidableEq, Repr

/-- The challenge reaction of `make_voice_call_with_rtp`
(lines 415-416): `self.cseq += 1` and a branch rebuilt from a fresh
`random.randint(1000000, 9999999)` draw `r`. -/
def challenge_step (st : ClientState) (r : Nat) : ClientState :=
  { st with cseq := st.cseq + 1, branch := "z9hG4bK" ++ toString r }

/-- The header list of `create_invite_with_auth_and_sdp`
(lines 302-341) before the `Content-Length`/body tail; `localIp` stands
for `get_local_ip()` and `cnonce` for the client-nonce draw.  With a
challenge, the `Authorization` header is `insert(-1, ...)`-ed before
`Content-Type`. -/
def invite_headers (st : ClientState) (toNumber localIp : String)
    (authInfo : Option AuthInfo) (cnonce : String) : List String :=
  let uri := "sip:" ++ toNumber ++ "@" ++ st.server_host
  let base := ["INVITE " ++ uri ++ " SIP/2.0",
    "Via: SIP/2.0/UDP " ++ localIp ++ ":" ++ toString st.local_port ++
      ";branch=" ++ st.branch,
    "Max-Forwards: 70",
    "From: <sip:" ++ st.username ++ "@" ++ st.server_host ++ ">;tag=" ++ st.tag,
    "To: <sip:" ++ toNumber ++ "@" ++ st.server_host ++ ">",
    "Contact: <sip:" ++ st.username ++ "@" ++ localIp ++ ":" ++
      toString st.local_port ++ ">",
    "Call-ID: " ++ st.call_id,
    "CSeq: " ++ toString st.cseq ++ " INVITE",
    "Content-Type: application/sdp"]
  match authInfo with
  | none => base
  | some info =>
    let rnc := calculate_digest_response st.username st.password info
      "INVITE" uri cnonce
    let ah := "Digest username=\"" ++ st.username ++ "\", realm=\"" ++
      info.realm.getD "" ++ "\", nonce=\"" ++ info.nonce.getD "" ++
      "\", uri=\"" ++ uri ++ "\", response=\"" ++ rnc.1 ++ "\""
    let ah := if truthyOpt info.opq then
        ah ++ ", opaque=\"" ++ info.opq.getD "" ++ "\"" else ah
    let ah := if truthyOpt info.qop && truthyOpt rnc.2.1 && truthyOpt rnc.2.2
      then ah ++ ", qop=" ++ info.qop.getD "" ++ ", nc=" ++ rnc.2.1.getD "" ++
        ", cnonce=\"" ++ rnc.2.2.getD "" ++ "\""
      else ah
    base.dropLast ++ ["Authorization: " ++ ah, base.getLastD ""]

/-- The full wire message of `create_invite_with_auth_and_sdp`:
headers, `Content-Length`, a blank line, then the SDP body, joined with
CRLF.  The body keeps its internal bare-`\n` line endings. -/
def create_invite_with_auth_and_sdp (st : ClientState)
    (toNumber localIp : String) (sessionId ver : Nat)
    (authInfo : Option AuthInfo) (cnonce : String) : String :=
  let sdpBody := create_sdp_body localIp sessionId ver st.rtp_port
  String.intercalate "\r\n"
    (invite_headers st toNumber localIp authInfo cnonce ++
      ["Content-Length: " ++ toString sdpBody.length, "", sdpBody])

/-- Python `pat in s`. -/
def strContains (s pat : String) : Bool := (subSearch pat.data s.data).isSome

/-- Python `str.strip()`. -/
def pyStrip (s : String) : String :=
  ⟨((s.data.dropWhile isPyWhitespace).reverse.dropWhile
    isPyWhitespace).reverse⟩

/-- Challenge extraction of `make_voice_call_with_rtp` (lines 405-409):
the text after the colon of the first `WWW-Authenticate:` line,
stripped; `""` when no such line exists. -/
def extract_www_auth (resp : String) : String :=
  match (pySplit resp.data ['\r', '\n']).find? (fun l =>
      ("WWW-Authenticate:".data).isPrefixOf l) with
  | none => ""
  | some line => pyStrip ⟨line.drop 17⟩

/-- Messages the engine sends, as far as the claims observe them. -/
inductive SentMsg where
  | invite (auth : Bool)
  | ack
  deriving DecidableEq, Repr

/-- The answer handling of the 200-OK branch (lines 440-472): the
parsed endpoint is used only when both components are Python-truthy. -/
def handle200 (resp : String) : Option (String × Int) :=
  let pr := parse_sdp_response resp
  if truthyOpt pr.1 && truthyPort pr.2 then
    some (pr.1.getD "", pr.2.getD 0)
  else none

/-- The post-retry wait loop (lines 427-494) over the remaining
responses: result, messages appended, and the remote endpoint handed to
`RTPAudioStreamer`.  An exhausted list is the `max_wait_time` timeout
(`return False`); an unrecognized response (a second `401` included)
matches no branch and is skipped. -/
def respLoop : List String → List SentMsg →
    Bool × List SentMsg × Option (String × Int)
  | [], sent => (false, sent, none)
  | r :: rest, sent =>
    if strContains r "100 Trying" then respLoop rest sent
    else if strContains r "180 Ringing" then respLoop rest sent
    else if strContains r "183 Session Progress" then respLoop rest sent
    else if strContains r "200 OK" then
      match handle200 r with
      | some tgt => (true, sent ++ [SentMsg.ack], some tgt)
      | none => (false, sent, none)
    else if strContains r "486 Busy" || strContains r "404 Not Found" then
      (false, sent, none)
    else if strContains r "603 Decline" then (false, sent, none)
    else if strContains r "408 Request Timeout" then (false, sent, none)
    else respLoop rest sent

/-- Embedding of `make_voice_call_with_rtp` (lines 369-506) as a trace function over
the list of datagrams received on the signaling socket: returns the
boolean outcome, the sent messages, and the RTP handoff target.  A
first response that is not a `401` (or a `401` without a
`WWW-Authenticate` line) falls through to the final `return False`. -/
def make_voice_call_trace (responses : List String) :
    Bool × List SentMsg × Option (String × Int) :=
  let sent0 := [SentMsg.invite false]
  match responses with
  | [] => (false, sent0, none)
  | r1 :: rest =>
    if strContains r1 "401 Unauthorized" then
      if !(extract_www_auth r1).data.isEmpty then
        respLoop rest (sent0 ++ [SentMsg.invite true])
      else (false, sent0, none)
    else (false, sent0, none)

/-- Authenticated INVITEs in a message list. -/
def countAuthInvites (msgs : List SentMsg) : Nat :=
  msgs.countP fun m => match m with
    | SentMsg.invite true => true
    | _ => false

/-! ### Helper lemmas -/

/-- Chunk 0 of the exhaustive magnitude-domain bound. -/
theorem ulawMagChunk0 : ∀ b : Nat, b < 256 →
    encMag (256 * 0 + b) ≤ 127 ∧
    decMag (encMag (256 * 0 + b)) ≤ 4 * (256 * 0 + b) + 641 ∧
    4 * (256 * 0 + b) ≤ decMag (encMag (256 * 0 + b)) + 641 := by
  decide!

/-- Chunk 1 of the exhaustive magnitude-domain bound. -/
theorem ulawMagChunk1 : ∀ b : Nat, b < 256 →
    encMag (256 * 1 + b) ≤ 127 ∧
    decMag (encMag (256 * 1 + b)) ≤ 4 * (256 * 1 + b) + 641 ∧
    4 * (256 * 1 + b) ≤ decMag (encMag (256 * 1 + b)) + 641 := by
  decide!

/-- Chunk 2 of the exhaustive magnitude-domain bound. -/
theorem ulawMagChunk2 : ∀ b : Nat, b < 256 →
    encMag (256 * 2 + b) ≤ 127 ∧
    decMag (encMag (256 * 2 + b)) ≤ 4 * (256 * 2 + b) + 641 ∧
    4 * (256 * 2 + b) ≤ decMag (encMag (256 * 2 + b)) + 641 := by
  decide!

/-- Chunk 3 of the exhaustive magnitude-domain bound. -/
theorem ulawMagChunk3 : ∀ b : Nat, b < 256 →
    encMag (256 * 3 + b) ≤ 127 ∧
    decMag (encMag (256 * 3 + b)) ≤ 4 * (256 * 3 + b) + 641 ∧
    4 * (256 * 3 + b) ≤ decMag (encMag (256 * 3 + b)) + 641 := by
  decide!

/-- Chunk 4 of the exhaustive magnitude-domain bound. -/
theorem ulawMagChunk4 : ∀ b : Nat, b < 256 →
    encMag (256 * 4 + b) ≤ 127 ∧
    decMag (encMag (256 * 4 + b)) ≤ 4 * (256 * 4 + b) + 641 ∧
    4 * (256 * 4 + b) ≤ decMag (encMag (256 * 4 + b)) + 641 := by
  decide!

/-- Chunk 5 of the exhaustive magnitude-domain bound. -/
theorem ulawMagChunk5 : ∀ b : Nat, b < 256 →
    encMag (256 * 5 + b) ≤ 127 ∧
    decMag (encMag (256 * 5 + b)) ≤ 4 * (256 * 5 + b) + 641 ∧
    4 * (256 * 5 + b) ≤ decMag (encMag (256 * 5 + b)) + 641 := by
  decide!

/-- Chunk 6 of the exhaustive magnitude-domain bound. -/
theorem ulawMagChunk6 : ∀ b : Nat, b < 256 →
    encMag (256 * 6 + b) ≤ 127 ∧
    decMag (encMag (256 * 6 + b)) ≤ 4 * (256 * 6 + b) + 641 ∧
    4 * (256 * 6 + b) ≤ decMag (encMag (256 * 6 + b)) + 641 := by
  decide!

/-- Chunk 7 of the exhaustive magnitude-domain bound. -/
theorem ulawMagChunk7 : ∀ b : Nat, b < 256 →
    encMag (256 * 7 + b) ≤ 127 ∧
    decMag (encMag (256 * 7 + b)) ≤ 4 * (256 * 7 + b) + 641 ∧
    4 * (256 * 7 + b) ≤ decMag (encMag (256 * 7 + b)) + 641 := by
  decide!

/-- Chunk 8 of the exhaustive magnitude-domain bound. -/
theorem ulawMagChunk8 : ∀ b : Nat, b < 256 →
    encMag (256 * 8 + b) ≤ 127 ∧
    decMag (encMag (256 * 8 + b)) ≤ 4 * (256 * 8 + b) + 641 ∧
    4 * (256 * 8 + b) ≤ decMag (encMag (256 * 8 + b)) + 641 := by
  decide!

/-- Chunk 9 of the exhaustive magnitude-domain bound. -/
theorem ulawMagChunk9 : ∀ b : Nat, b < 256 →
    encMag (256 * 9 + b) ≤ 127 ∧
    decMag (encMag (256 * 9 + b)) ≤ 4 * (256 * 9 + b) + 641 ∧
    4 * (256 * 9 + b) ≤ decMag (encMag (256 * 9 + b)) + 641 := by
  decide!

/-- Chunk 10 of the exhaustive magnitude-domain bound. -/
theorem ulawMagChunk10 : ∀ b : Nat, b < 256 →
    encMag (256 * 10 + b) ≤ 127 ∧
    decMag (encMag (256 * 10 + b)) ≤ 4 * (256 * 10 + b) + 641 ∧
    4 * (256 * 10 + b) ≤ decMag (encMag (256 * 10 + b)) + 641 := by
  decide!

/-- Chunk 11 of the exhaustive magnitude-domain bound. -/
theorem ulawMagChunk11 : ∀ b : Nat, b < 256 →
    encMag (256 * 11 + b) ≤ 127 ∧
    decMag (encMag (256 * 11 + b)) ≤ 4 * (256 * 11 + b) + 641 ∧
    4 * (256 * 11 + b) ≤ decMag (encMag (256 * 11 + b)) + 641 := by
  decide!

/-- Chunk 12 of the exhaustive magnitude-domain bound. -/
theorem ulawMagChunk12 : ∀ b : Nat, b < 256 →
    encMag (256 * 12 + b) ≤ 127 ∧
    decMag (encMag (256 * 12 + b)) ≤ 4 * (256 * 12 + b) + 641 ∧
    4 * (256 * 12 + b) ≤ decMag (encMag (256 * 12 + b)) + 641 := by
  decide!

/-- Chunk 13 of the exhaustive magnitude-domain bound. -/
theorem ulawMagChunk13 : ∀ b : Nat, b < 256 →
    encMag (256 * 13 + b) ≤ 127 ∧
    decMag (encMag (256 * 13 + b)) ≤ 4 * (256 * 13 + b) + 641 ∧
    4 * (256 * 13 + b) ≤ decMag (encMag (256 * 13 + b)) + 641 := by
  decide!

/-- Chunk 14 of the exhaustive magnitude-domain bound. -/
theorem ulawMagChunk14 : ∀ b : Nat, b < 256 →
    encMag (256 * 14 + b) ≤ 127 ∧
    decMag (encMag (256 * 14 + b)) ≤ 4 * (256 * 14 + b) + 641 ∧
    4 * (256 * 14 + b) ≤ decMag (encMag (256 * 14 + b)) + 641 := by
  decide!

/-- Chunk 15 of the exhaustive magnitude-domain bound. -/
theorem ulawMagChunk15 : ∀ b : Nat, b < 256 →
    encMag (256 * 15 + b) ≤ 127 ∧
    decMag (encMag (256 * 15 + b)) ≤ 4 * (256 * 15 + b) + 641 ∧
    4 * (256 * 15 + b) ≤ decMag (encMag (256 * 15 + b)) + 641 := by
  decide!

/-- Chunk 16 of the exhaustive magnitude-domain bound. -/
theorem ulawMagChunk16 : ∀ b : Nat, b < 256 →
    encMag (256 * 16 + b) ≤ 127 ∧
    decMag (encMag (256 * 16 + b)) ≤ 4 * (256 * 16 + b) + 641 ∧
    4 * (256 * 16 + b) ≤ decMag (encMag (256 * 16 + b)) + 641 := by
  decide!

/-- Chunk 17 of the exhaustive magnitude-domain bound. -/
theorem ulawMagChunk17 : ∀ b : Nat, b < 256 →
    encMag (256 * 17 + b) ≤ 127 ∧
    decMag (encMag (256 * 17 + b)) ≤ 4 * (256 * 17 + b) + 641 ∧
    4 * (256 * 17 + b) ≤ decMag (encMag (256 * 17 + b)) + 641 := by
  decide!

/-- Chunk 18 of the exhaustive magnitude-domain bound. -/
theorem ulawMagChunk18 : ∀ b : Nat, b < 256 →
    encMag (256 * 18 + b) ≤ 127 ∧
    decMag (encMag (256 * 18 + b)) ≤ 4 * (256 * 18 + b) + 641 ∧
    4 * (256 * 18 + b) ≤ decMag (encMag (256 * 18 + b)) + 641 := by
  decide!

/-- Chunk 19 of the exhaustive magnitude-domain bound. -/
theorem ulawMagChunk19 : ∀ b : Nat, b < 256 →
    encMag (256 * 19 + b) ≤ 127 ∧
    decMag (encMag (256 * 19 + b)) ≤ 4 * (256 * 19 + b) + 641 ∧
    4 * (256 * 19 + b) ≤ decMag (encMag (256 * 19 + b)) + 641 := by
  decide!

/-- Chunk 20 of the exhaustive magnitude-domain bound. -/
theorem ulawMagChunk20 : ∀ b : Nat, b < 256 →
    encMag (256 * 20 + b) ≤ 127 ∧
    decMag (encMag (256 * 20 + b)) ≤ 4 * (256 * 20 + b) + 641 ∧
    4 * (256 * 20 + b) ≤ decMag (encMag (256 * 20 + b)) + 641 := by
  decide!

/-- Chunk 21 of the exhaustive magnitude-domain bound. -/
theorem ulawMagChunk21 : ∀ b : Nat, b < 256 →
    encMag (256 * 21 + b) ≤ 127 ∧
    decMag (encMag (256 * 21 + b)) ≤ 4 * (256 * 21 + b) + 641 ∧
    4 * (256 * 21 + b) ≤ decMag (encMag (256 * 21 + b)) + 641 := by
  decide!

/-- Chunk 22 of the exhaustive magnitude-domain bound. -/
theorem ulawMagChunk22 : ∀ b : Nat, b < 256 →
    encMag (256 * 22 + b) ≤ 127 ∧
    decMag (encMag (256 * 22 + b)) ≤ 4 * (256 * 22 + b) + 641 ∧
    4 * (256 * 22 + b) ≤ decMag (encMag (256 * 22 + b)) + 641 := by
  decide!

/-- Chunk 23 of the exhaustive magnitude-domain bound. -/
theorem ulawMagChunk23 : ∀ b : Nat, b < 256 →
    encMag (256 * 23 + b) ≤ 127 ∧
    decMag (encMag (256 * 23 + b)) ≤ 4 * (256 * 23 + b) + 641 ∧
    4 * (256 * 23 + b) ≤ decMag (encMag (256 * 23 + b)) + 641 := by
  decide!

/-- Chunk 24 of the exhaustive magnitude-domain bound. -/
theorem ulawMagChunk24 : ∀ b : Nat, b < 256 →
    encMag (256 * 24 + b) ≤ 127 ∧
    decMag (encMag (256 * 24 + b)) ≤ 4 * (256 * 24 + b) + 641 ∧
    4 * (256 * 24 + b) ≤ decMag (encMag (256 * 24 + b)) + 641 := by
  decide!

/-- Chunk 25 of the exhaustive magnitude-domain bound. -/
theorem ulawMagChunk25 : ∀ b : Nat, b < 256 →
    encMag (256 * 25 + b) ≤ 127 ∧
    decMag (encMag (256 * 25 + b)) ≤ 4 * (256 * 25 + b) + 641 ∧
    4 * (256 * 25 + b) ≤ decMag (encMag (256 * 25 + b)) + 641 := by
  decide!

/-- Chunk 26 of the exhaustive magnitude-domain bound. -/
theorem ulawMagChunk26 : ∀ b : Nat, b < 256 →
    encMag (256 * 26 + b) ≤ 127 ∧
    decMag (encMag (256 * 26 + b)) ≤ 4 * (256 * 26 + b) + 641 ∧
    4 * (256 * 26 + b) ≤ decMag (encMag (256 * 26 + b)) + 641 := by
  decide!

/-- Chunk 27 of the exhaustive magnitude-domain bound. -/
theorem ulawMagChunk27 : ∀ b : Nat, b < 256 →
    encMag (256 * 27 + b) ≤ 127 ∧
    decMag (encMag (256 * 27 + b)) ≤ 4 * (256 * 27 + b) + 641 ∧
    4 * (256 * 27 + b) ≤ decMag (encMag (256 * 27 + b)) + 641 := by
  decide!

/-- Chunk 28 of the exhaustive magnitude-domain bound. -/
theorem ulawMagChunk28 : ∀ b : Nat, b < 256 →
    encMag (256 * 28 + b) ≤ 127 ∧
    decMag (encMag (256 * 28 + b)) ≤ 4 * (256 * 28 + b) + 641 ∧
    4 * (256 * 28 + b) ≤ decMag (encMag (256 * 28 + b)) + 641 := by
  decide!

/-- Chunk 29 of the exhaustive magnitude-domain bound. -/
theorem ulawMagChunk29 : ∀ b : Nat, b < 256 →
    encMag (256 * 29 + b) ≤ 127 ∧
    decMag (encMag (256 * 29 + b)) ≤ 4 * (256 * 29 + b) + 641 ∧
    4 * (256 * 29 + b) ≤ decMag (encMag (256 * 29 + b)) + 641 := by
  decide!

/-- Chunk 30 of the exhaustive magnitude-domain bound. -/
theorem ulawMagChunk30 : ∀ b : Nat, b < 256 →
    encMag (256 * 30 + b) ≤ 127 ∧
    decMag (encMag (256 * 30 + b)) ≤ 4 * (256 * 30 + b) + 641 ∧
    4 * (256 * 30 + b) ≤ decMag (encMag (256 * 30 + b)) + 641 := by
  decide!

/-- Chunk 31 of the exhaustive magnitude-domain bound. -/
theorem ulawMagChunk31 : ∀ b : Nat, b < 256 →
    encMag (256 * 31 + b) ≤ 127 ∧
    decMag (encMag (256 * 31 + b)) ≤ 4 * (256 * 31 + b) + 641 ∧
    4 * (256 * 31 + b) ≤ decMag (encMag (256 * 31 + b)) + 641 := by
  decide!

/-- Exhaustive bound over the 14-bit magnitude domain `[0, 8191]`
(indexed as `256 * a + b`): the raw code byte stays in 7 bits and the
decoded magnitude stays within 641 of four times the input. -/
theorem ulawMagBall : ∀ a : Nat, a < 32 → ∀ b : Nat, b < 256 →
    encMag (256 * a + b) ≤ 127 ∧
    decMag (encMag (256 * a + b)) ≤ 4 * (256 * a + b) + 641 ∧
    4 * (256 * a + b) ≤ decMag (encMag (256 * a + b)) + 641 := by
  intro a ha b hb
  interval_cases a
  exacts [ulawMagChunk0 b hb, ulawMagChunk1 b hb, ulawMagChunk2 b hb, ulawMagChunk3 b hb, ulawMagChunk4 b hb, ulawMagChunk5 b hb, ulawMagChunk6 b hb, ulawMagChunk7 b hb, ulawMagChunk8 b hb, ulawMagChunk9 b hb, ulawMagChunk10 b hb, ulawMagChunk11 b hb, ulawMagChunk12 b hb, ulawMagChunk13 b hb, ulawMagChunk14 b hb, ulawMagChunk15 b hb, ulawMagChunk16 b hb, ulawMagChunk17 b hb, ulawMagChunk18 b hb, ulawMagChunk19 b hb, ulawMagChunk20 b hb, ulawMagChunk21 b hb, ulawMagChunk22 b hb, ulawMagChunk23 b hb, ulawMagChunk24 b hb, ulawMagChunk25 b hb, ulawMagChunk26 b hb, ulawMagChunk27 b hb, ulawMagChunk28 b hb, ulawMagChunk29 b hb, ulawMagChunk30 b hb, ulawMagChunk31 b hb]

/-- The core encoder is the magnitude code xor-ed with the sign mask
(`0x7F` negative, `0xFF` nonnegative). -/
theorem st14core_encMag : ∀ p : Int, -8192 ≤ p → p ≤ 8192 →
    st14core p = Nat.xor (encMag p.natAbs) (if p < 0 then 0x7F else 0xFF) := by
  intro p h1 h2
  by_cases hp : p < 0
  · have hm : (min (-p) 8159).toNat + 33 = min p.natAbs 8159 + 33 := by omega
    simp only [st14core, encMag, if_pos hp]
    rw [hm]
    split_ifs <;> rfl
  · have hm : (min p 8159).toNat + 33 = min p.natAbs 8159 + 33 := by omega
    simp only [st14core, encMag, if_neg hp]
    rw [hm]
    split_ifs <;> rfl

/-- Decoding a masked code byte gives the decoded magnitude, with the
sign carried by the mask. -/
theorem decode_xor_mask : ∀ c : Nat, c ≤ 127 →
    st_ulaw2linear16 (Nat.xor c 0xFF) = (decMag c : Int) ∧
    st_ulaw2linear16 (Nat.xor c 0x7F) = -(decMag c : Int) := by
  decide

/-- The clipped top magnitude 8192 encodes to 0x7F and decodes to
32124. -/
theorem encMag_top : encMag 8192 = 127 ∧ decMag 127 = 32124 := by
  decide

theorem pairsOf_length : ∀ l : List Nat, (pairsOf l).length = l.length / 2
  | [] => rfl
  | [_] => by simp [pairsOf]
  | _ :: _ :: rest => by
    simp only [pairsOf, List.length_cons, pairsOf_length rest]
    omega

theorem padChunk_length (c : List Nat) (h : c.length ≤ 160) :
    (padChunk c).length = 160 := by
  unfold padChunk
  split
  · simp
    omega
  · omega

/-- The wait loop only ever appends the single `ACK`: the sent-message
list it returns is the input list, possibly extended by one `ACK`. -/
theorem respLoop_sent : ∀ rs : List String, ∀ sent : List SentMsg,
    (respLoop rs sent).2.1 = sent ∨
    (respLoop rs sent).2.1 = sent ++ [SentMsg.ack]
  | [], _ => Or.inl rfl
  | r :: rest, sent => by
    simp only [respLoop]
    split_ifs <;>
      first
        | exact respLoop_sent rest sent
        | (cases handle200 r <;> simp)

theorem countAuthInvites_append (a b : List SentMsg) :
    countAuthInvites (a ++ b) = countAuthInvites a + countAuthInvites b := by
  simp [countAuthInvites, List.countP_append]

/-! ### Claims -/

/-- C1: the digest response is `MD5(HA1:nonce:HA2)` with
`HA1 = MD5(username:realm:password)`, `HA2 = MD5(method:uri)` when the
challenge has no qop, and `MD5(HA1:nonce:nc:cnonce:qop:HA2)` with
`nc = "00000001"` and the random client nonce when qop is present; at
the RFC 2617 reference inputs (username `Mufasa`, realm
`testrealm@host.com`, password `Circle Of Life`, nonce
`dcd98b7102dd2f0e8b11d0f600bfb0c093`, method `GET`, uri
`/dir/index.html`, no qop) the response is the reference value. -/
theorem c1_digest_response_formula :
    (∀ u p : String, ∀ i : AuthInfo, ∀ m uri cn : String,
      (i.qop.getD "" = "" →
        calculate_digest_response u p i m uri cn =
          (md5Hex (md5Hex (u ++ ":" ++ i.realm.getD "" ++ ":" ++ p) ++ ":" ++
            i.nonce.getD "" ++ ":" ++ md5Hex (m ++ ":" ++ uri)),
           none, none)) ∧
      (i.qop.getD "" ≠ "" →
        calculate_digest_response u p i m uri cn =
          (md5Hex (md5Hex (u ++ ":" ++ i.realm.getD "" ++ ":" ++ p) ++ ":" ++
            i.nonce.getD "" ++ ":" ++ "00000001" ++ ":" ++ cn ++ ":" ++
            i.qop.getD "" ++ ":" ++ md5Hex (m ++ ":" ++ uri)),
           some "00000001", some cn))) ∧
    (calculate_digest_response "Mufasa" "Circle Of Life"
      ⟨some "testrealm@host.com", some "dcd98b7102dd2f0e8b11d0f600bfb0c093",
        none, none, none⟩ "GET" "/dir/index.html" "0").1 =
      "670fd8c2df070c60b045671b8b24ff02" := by
  constructor
  · intro u p i m uri cn
    constructor <;> intro h <;> simp [calculate_digest_response, h]
  · decide!

/-- C1 witness: both branches of the formula at concrete inputs. -/
theorem c1_digest_response_formula_witness :
    calculate_digest_response "1001" "tt55oo77"
      ⟨some "test", some "abc123", none, none, none⟩ "INVITE" "sip:x@y" "42" =
      (md5Hex (md5Hex ("1001" ++ ":" ++ "test" ++ ":" ++ "tt55oo77") ++ ":" ++
        "abc123" ++ ":" ++ md5Hex ("INVITE" ++ ":" ++ "sip:x@y")), none, none) ∧
    calculate_digest_response "1001" "tt55oo77"
      ⟨some "test", some "abc123", none, none, some "auth"⟩ "INVITE" "sip:x@y"
        "42" =
      (md5Hex (md5Hex ("1001" ++ ":" ++ "test" ++ ":" ++ "tt55oo77") ++ ":" ++
        "abc123" ++ ":" ++ "00000001" ++ ":" ++ "42" ++ ":" ++ "auth" ++ ":" ++
        md5Hex ("INVITE" ++ ":" ++ "sip:x@y")),
       some "00000001", some "42") :=
  ⟨(c1_digest_response_formula.1 "1001" "tt55oo77"
      ⟨some "test", some "abc123", none, none, none⟩ "INVITE" "sip:x@y"
      "42").1 rfl,
   (c1_digest_response_formula.1 "1001" "tt55oo77"
      ⟨some "test", some "abc123", none, none, some "auth"⟩ "INVITE" "sip:x@y"
      "42").2 (by decide)⟩

/-- C2: packet creation is claimed never to error, with the sequence
number wrapping mod 2^16 and the timestamp wrapping mod 2^32.  The code
does wrap the sequence number (65535 rolls to 0 here), but the
timestamp is accumulated without reduction, so once it passes
2^32 - 1 the `struct.pack('!BBHII', ...)` call raises `struct.error`:
from the in-range seed 4294967295 the first packet succeeds and the
second raises instead of wrapping. -/
theorem c2_timestamp_overflow_struct_error :
    ((create_rtp_packet ⟨65535, 0, 0⟩ (List.replicate 160 0x7f)).map
        fun x => x.2.sequence_number) = some 0 ∧
    (create_rtp_packet ⟨0, 4294967295, 0⟩ (List.replicate 160 0x7f)).isSome =
      true ∧
    ((create_rtp_packet ⟨0, 4294967295, 0⟩ (List.replicate 160 0x7f)).map
        fun x => x.2.timestamp) = some 4294967455 ∧
    sendPackets ⟨0, 4294967295, 0⟩
      [List.replicate 160 0x7f, List.replicate 160 0x7f] = none := by
  refine ⟨by decide, by decide, by decide, by decide⟩

/-- C3 counterexample: a `200 OK` whose SDP parses to the connection IP
`10.0.0.5` and the audio media port `0` — the parser yields both an IP
and a port, yet the engine takes the failure branch: no `ACK` is
appended and nothing is handed to the streamer. -/
theorem c3_port_zero_counterexample :
    parse_sdp_response
        "SIP/2.0 200 OK\r\nContent-Type: application/sdp\r\n\r\nv=0\r\nc=IN IP4 10.0.0.5\r\nm=audio 0 RTP/AVP 0\r\n" =
      (some "10.0.0.5", some 0) ∧
    respLoop
        ["SIP/2.0 200 OK\r\nContent-Type: application/sdp\r\n\r\nv=0\r\nc=IN IP4 10.0.0.5\r\nm=audio 0 RTP/AVP 0\r\n"]
        [] =
      (false, [], none) := by
  refine ⟨by decide, by decide⟩

/-- C3 (amended): for a `200 OK` final response, when the parsed SDP
yields a Python-truthy pair — a nonempty connection IP and a nonzero
audio port — the engine appends the `ACK` and hands exactly that
endpoint to the RTP streamer; when either component is missing, empty
or zero, the attempt fails with no `ACK` and no streaming. -/
theorem c3_answer_endpoint_handoff :
    ∀ resp : String, ∀ rest : List String, ∀ sent : List SentMsg,
      strContains resp "100 Trying" = false →
      strContains resp "180 Ringing" = false →
      strContains resp "183 Session Progress" = false →
      strContains resp "200 OK" = true →
      ((truthyOpt (parse_sdp_response resp).1 &&
          truthyPort (parse_sdp_response resp).2) = true →
        respLoop (resp :: rest) sent =
          (true, sent ++ [SentMsg.ack],
            some ((parse_sdp_response resp).1.getD "",
              (parse_sdp_response resp).2.getD 0))) ∧
      ((truthyOpt (parse_sdp_response resp).1 &&
          truthyPort (parse_sdp_response resp).2) = false →
        respLoop (resp :: rest) sent = (false, sent, none)) := by
  intro resp rest sent h1 h2 h3 h4
  constructor <;> intro h5 <;>
    simp [respLoop, handle200, h1, h2, h3, h4, h5]

/-- C3 witness: the amended claim at a concrete well-formed answer. -/
theorem c3_answer_endpoint_handoff_witness :
    respLoop ["SIP/2.0 200 OK\r\n\r\nc=IN IP4 10.0.0.5\r\nm=audio 30000 RTP/AVP 0"]
        [SentMsg.invite false, SentMsg.invite true] =
      (true, [SentMsg.invite false, SentMsg.invite true, SentMsg.ack],
        some ("10.0.0.5", 30000)) := by
  have h := (c3_answer_endpoint_handoff
    "SIP/2.0 200 OK\r\n\r\nc=IN IP4 10.0.0.5\r\nm=audio 30000 RTP/AVP 0" []
    [SentMsg.invite false, SentMsg.invite true]
    (by decide) (by decide) (by decide) (by decide)).1 (by decide)
  exact h.trans (by decide)

/-- C4: over every possible sequence of received responses, the call
attempt sends at most one INVITE carrying an `Authorization` header;
in particular a run whose first and second responses are both `401`
challenges resends exactly once and ends in a failed outcome (the
second challenge matches no branch of the wait loop, so no further
authenticated resend ever happens). -/
theorem c4_at_most_one_auth_invite :
    (∀ responses : List String,
      countAuthInvites (make_voice_call_trace responses).2.1 ≤ 1) ∧
    make_voice_call_trace
      ["SIP/2.0 401 Unauthorized\r\nWWW-Authenticate: Digest realm=\"test\", nonce=\"abc123\"\r\n\r\n",
       "SIP/2.0 401 Unauthorized\r\nWWW-Authenticate: Digest realm=\"test\", nonce=\"abc123\"\r\n\r\n"] =
      (false, [SentMsg.invite false, SentMsg.invite true], none) := by
  constructor
  · intro rs
    cases rs with
    | nil => decide
    | cons r1 rest =>
      simp only [make_voice_call_trace]
      split_ifs with h1 h2
      · rcases respLoop_sent rest
          ([SentMsg.invite false] ++ [SentMsg.invite true]) with h | h <;>
          rw [h] <;> decide
      · decide
      · decide
  · decide

/-- C5: the SDP round-trip property fails in the code.  The generated
session description does embed the supplied IP and port, but
`create_sdp_body` writes bare `\n` line endings while
`parse_sdp_response` splits the body on `\r\n`, so running the
component's own parser on its own outgoing INVITE (here for local IP
`10.0.0.5` and RTP port 30000) recovers `(None, None)` instead of the
supplied endpoint. -/
theorem c5_sdp_roundtrip_failure :
    strContains (create_sdp_body "10.0.0.5" 111 222 30000)
      "c=IN IP4 10.0.0.5" = true ∧
    strContains (create_sdp_body "10.0.0.5" 111 222 30000)
      "m=audio 30000 RTP/AVP 0 8" = true ∧
    parse_sdp_response
      (create_invite_with_auth_and_sdp
        ⟨"192.168.1.187", "1001", "tt55oo77", 5061, 30000, "123@host",
          "tagA", "z9hG4bK1", 1⟩
        "0796026659" "10.0.0.5" 111 222 none "0") = (none, none) ∧
    (none, (none : Option Int)) ≠
      ((some "10.0.0.5" : Option String), (some 30000 : Option Int)) := by
  refine ⟨by decide, by decide, by decide, by decide⟩

/-- C6: an RTP packet built from in-range counters is exactly the
12-byte header — first byte 128 (version 2, no padding, no extension,
zero CSRC count), second byte 0 (marker 0, payload type 0), then the
big-endian sequence number, timestamp and SSRC — followed by the
payload unchanged; every chunk `stream_audio_file` passes as payload
has exactly 160 bytes, the short final chunk being padded with 0x7f,
which is the μ-law encoding of silence (it decodes to 0). -/
theorem c6_rtp_packet_shape :
    (∀ st : RTPState, ∀ payload : List Nat,
      st.sequence_number < 65536 → st.timestamp < 4294967296 →
      st.ssrc < 4294967296 →
      create_rtp_packet st payload =
        some ([128, 0] ++ be16 st.sequence_number ++ be32 st.timestamp ++
            be32 st.ssrc ++ payload,
          ⟨(st.sequence_number + 1) % 65536,
            st.timestamp + payload.length, st.ssrc⟩) ∧
      ([128, 0] ++ be16 st.sequence_number ++ be32 st.timestamp ++
          be32 st.ssrc ++ payload).length = 12 + payload.length ∧
      (128 : Nat) >>> 6 = 2 ∧ (128 : Nat) &&& 63 = 0) ∧
    (∀ ulaw : List Nat, ∀ c ∈ toChunks ulaw, c.length = 160) ∧
    (∀ c : List Nat, c.length ≤ 160 →
      padChunk c = c ++ List.replicate (160 - c.length) 0x7f) ∧
    st_ulaw2linear16 0x7f = 0 := by
  refine ⟨?_, ?_, ?_, by decide⟩
  · intro st payload h1 h2 h3
    refine ⟨?_, ?_, by decide, by decide⟩
    · have e1 : ((Nat.lor 128 0).lor 0).lor 0 = 128 := by decide
      have e2 : Nat.lor 0 0 = 0 := by decide
      simp [create_rtp_packet, packBBHII, e1, e2, h1, h2, h3,
        List.append_assoc]
    · simp [be16, be32]
      omega
  · intro ulaw c hc
    rcases List.mem_map.1 hc with ⟨i, _, rfl⟩
    refine padChunk_length _ ?_
    rw [List.length_take]
    exact min_le_left _ _
  · intro c h
    unfold padChunk
    split
    · rfl
    · have hc : c.length = 160 := by omega
      simp [hc]

/-- C6 witness: the packet equation at in-range counters (the sequence
number also rolling over), and a 160-byte padded chunk. -/
theorem c6_rtp_packet_shape_witness :
    create_rtp_packet ⟨65535, 4294967295, 7⟩ [1, 2, 3] =
      some ([128, 0] ++ be16 65535 ++ be32 4294967295 ++ be32 7 ++ [1, 2, 3],
        ⟨0, 4294967298, 7⟩) ∧
    ((toChunks (List.replicate 5 9)).getD 0 []).length = 160 := by
  constructor
  · have h := ((c6_rtp_packet_shape.1 ⟨65535, 4294967295, 7⟩ [1, 2, 3]
      (by decide) (by decide) (by decide))).1
    exact h.trans (by decide)
  · exact c6_rtp_packet_shape.2.1 (List.replicate 5 9) _ (by decide)

/-- C7: on every valid (even-length) 16-bit little-endian PCM buffer
the encoder takes the `audioop.lin2ulaw` path, total by construction,
producing one byte per sample; and for every 16-bit sample the standard
μ-law decoder recovers the encoder's output within 644, the bound
attained at the clipped negative full scale (interior samples stay
within half of the widest companding step plus the `>> 2`
truncation). -/
theorem c7_ulaw_roundtrip :
    (∀ d : List Nat, d.length % 2 = 0 →
      convert_to_ulaw d =
        (pairsOf d).map (fun p => st_14linear2ulaw (leInt16 p.1 p.2)) ∧
      (convert_to_ulaw d).length = d.length / 2) ∧
    (∀ s : Int, -32768 ≤ s → s ≤ 32767 →
      st_14linear2ulaw s < 256 ∧
      (st_ulaw2linear16 (st_14linear2ulaw s) - s).natAbs ≤ 644) := by
  constructor
  · intro d hd
    constructor
    · simp [convert_to_ulaw, hd]
    · simp [convert_to_ulaw, hd, pairsOf_length]
  · intro s hs1 hs2
    have hpr := Int.fdiv_add_fmod s 4
    have hr0 : 0 ≤ s.fmod 4 := Int.fmod_nonneg' s (by norm_num)
    have hr4 : s.fmod 4 < 4 := Int.fmod_lt_of_pos s (by norm_num)
    set p := s.fdiv 4 with hp
    set r := s.fmod 4 with hrd
    have hp1 : -8192 ≤ p := by omega
    have hp2 : p ≤ 8191 := by omega
    have henc : st_14linear2ulaw s = st14core p := by
      simp [st_14linear2ulaw, hp]
    have hcore := st14core_encMag p hp1 (by omega)
    set m := p.natAbs with hm
    by_cases hm8 : m < 8192
    · have hq2 : 256 * (m / 256) + m % 256 = m := by omega
      have key := ulawMagBall (m / 256) (by omega) (m % 256) (by omega)
      rw [hq2] at key
      have hdec := decode_xor_mask (encMag m) key.1
      rw [henc, hcore]
      by_cases hneg : p < 0
      · rw [if_pos hneg]
        refine ⟨Nat.xor_lt_two_pow (n := 8) (by omega) (by norm_num), ?_⟩
        rw [hdec.2]
        have hpm : p = -(m : Int) := by omega
        omega
      · rw [if_neg hneg]
        refine ⟨Nat.xor_lt_two_pow (n := 8) (by omega) (by norm_num), ?_⟩
        rw [hdec.1]
        have hpm : p = (m : Int) := by omega
        omega
    · have hm92 : m = 8192 := by omega
      have hneg : p < 0 := by omega
      have hdec := decode_xor_mask (encMag 8192) (by rw [encMag_top.1])
      rw [henc, hcore, if_pos hneg, hm92]
      refine ⟨Nat.xor_lt_two_pow (n := 8)
        (by rw [encMag_top.1]; norm_num) (by norm_num), ?_⟩
      rw [hdec.2, encMag_top.1, encMag_top.2]
      have hpm : p = -8192 := by omega
      omega

/-- C7 witness: the encoder on a concrete valid buffer and the
round-trip bound at the worst-case sample. -/
theorem c7_ulaw_roundtrip_witness :
    (convert_to_ulaw [0, 0, 255, 127]).length = 2 ∧
    (st_ulaw2linear16 (st_14linear2ulaw (-32768)) - (-32768)).natAbs ≤ 644 := by
  constructor
  · have h := (c7_ulaw_roundtrip.1 [0, 0, 255, 127] (by decide)).2
    exact h.trans (by decide)
  · exact (c7_ulaw_roundtrip.2 (-32768) (by decide) (by decide)).2

/-- C8: on a challenge the resent INVITE's CSeq is exactly one greater,
its Via carries the freshly drawn branch, and the Call-ID, From-tag,
Contact (local signaling port) and advertised RTP port are unchanged
from the initial INVITE. -/
theorem c8_challenge_resend_frame :
    ∀ st : ClientState, ∀ toNumber localIp : String, ∀ info : AuthInfo,
      ∀ cn : String, ∀ r : Nat,
      (challenge_step st r).cseq = st.cseq + 1 ∧
      (challenge_step st r).branch = "z9hG4bK" ++ toString r ∧
      (challenge_step st r).call_id = st.call_id ∧
      (challenge_step st r).tag = st.tag ∧
      (challenge_step st r).local_port = st.local_port ∧
      (challenge_step st r).rtp_port = st.rtp_port ∧
      (invite_headers (challenge_step st r) toNumber localIp (some info)
          cn).getD 7 "" = "CSeq: " ++ toString (st.cseq + 1) ++ " INVITE" ∧
      (invite_headers st toNumber localIp none cn).getD 7 "" =
        "CSeq: " ++ toString st.cseq ++ " INVITE" ∧
      (invite_headers (challenge_step st r) toNumber localIp (some info)
          cn).getD 1 "" =
        "Via: SIP/2.0/UDP " ++ localIp ++ ":" ++ toString st.local_port ++
          ";branch=" ++ ("z9hG4bK" ++ toString r) ∧
      (invite_headers (challenge_step st r) toNumber localIp (some info)
          cn).getD 6 "" =
        (invite_headers st toNumber localIp none cn).getD 6 "" ∧
      (invite_headers (challenge_step st r) toNumber localIp (some info)
          cn).getD 3 "" =
        (invite_headers st toNumber localIp none cn).getD 3 "" ∧
      (invite_headers (challenge_step st r) toNumber localIp (some info)
          cn).getD 5 "" =
        (invite_headers st toNumber localIp none cn).getD 5 "" := by
  intro st toNumber localIp info cn r
  exact ⟨rfl, rfl, rfl, rfl, rfl, rfl, rfl, rfl, rfl, rfl, rfl, rfl⟩

/-- C9 counterexample: a challenge carrying `algorithm=MD5-sess` is
parsed with that algorithm, yet the client still performs the
authenticated resend (one `Authorization`-bearing INVITE in the trace)
instead of failing hard without a retry. -/
theorem c9_md5sess_retry_counterexample :
    (parse_auth_header (extract_www_auth
      "SIP/2.0 401 Unauthorized\r\nWWW-Authenticate: Digest realm=\"asterisk\", nonce=\"xyz\", algorithm=MD5-sess, qop=\"auth\"\r\n\r\n")).algorithm =
      some "MD5-sess" ∧
    (make_voice_call_trace
      ["SIP/2.0 401 Unauthorized\r\nWWW-Authenticate: Digest realm=\"asterisk\", nonce=\"xyz\", algorithm=MD5-sess, qop=\"auth\"\r\n\r\n"]).2.1 =
      [SentMsg.invite false, SentMsg.invite true] := by
  refine ⟨by decide, by decide⟩

/-- C9 (amended): the parsed `algorithm` field is never consulted — the
digest depends only on realm, nonce and qop, and any parsable `401`
challenge (`algorithm=MD5-sess` included) triggers exactly one
authenticated resend computed with plain MD5. -/
theorem c9_algorithm_ignored :
    (∀ a b : AuthInfo, ∀ u p m uri cn : String,
      a.realm = b.realm → a.nonce = b.nonce → a.qop = b.qop →
      calculate_digest_response u p a m uri cn =
        calculate_digest_response u p b m uri cn) ∧
    (∀ r1 : String, ∀ rest : List String,
      strContains r1 "401 Unauthorized" = true →
      (extract_www_auth r1).data.isEmpty = false →
      countAuthInvites (make_voice_call_trace (r1 :: rest)).2.1 = 1) := by
  constructor
  · intro a b u p m uri cn h1 h2 h3
    simp [calculate_digest_response, h1, h2, h3]
  · intro r1 rest h1 h2
    simp only [make_voice_call_trace, h1, h2, Bool.not_false, if_true]
    rcases respLoop_sent rest
      ([SentMsg.invite false] ++ [SentMsg.invite true]) with h | h <;>
      rw [h] <;> decide

/-- C9 witness: digest independence at two challenges differing only in
the algorithm, and the single resend for a concrete MD5-sess
challenge. -/
theorem c9_algorithm_ignored_witness :
    calculate_digest_response "1001" "tt55oo77"
      ⟨some "rlm", some "nnc", none, some "MD5", some "auth"⟩ "INVITE"
      "sip:u" "7" =
      calculate_digest_response "1001" "tt55oo77"
        ⟨some "rlm", some "nnc", none, some "MD5-sess", some "auth"⟩ "INVITE"
        "sip:u" "7" ∧
    countAuthInvites (make_voice_call_trace
      ["SIP/2.0 401 Unauthorized\r\nWWW-Authenticate: Digest realm=\"r\", nonce=\"n\", algorithm=MD5-sess\r\n\r\n"]).2.1 =
      1 :=
  ⟨c9_algorithm_ignored.1 _ _ "1001" "tt55oo77" "INVITE" "sip:u" "7"
      rfl rfl rfl,
   c9_algorithm_ignored.2 _ [] (by decide) (by decide)⟩

/-- C10 counterexample: a body with a connection line but no `m=audio`
line returns `(some ip, None)`, not the claimed `(None, None)`. -/
theorem c10_ip_without_port_counterexample :
    parse_sdp_response "X\r\n\r\nv=0\r\nc=IN IP4 1.2.3.4\r\ns=-" =
      (some "1.2.3.4", none) ∧
    ((some "1.2.3.4" : Option String), (none : Option Int)) ≠
      (none, none) := by
  refine ⟨by decide, by decide⟩

/-- C10 (amended): the parser is total and each component is
independently `None`: no blank-line separator gives `(None, None)`, a
body with neither a `c=IN IP4 ` line nor an `m=audio ` line leaves both
components as they were (so `(None, None)`), and a non-numeric media
port aborts through the exception handler to `(None, None)` even when
an IP was already found; but a `c=` line without any `m=audio` line
yields `(some ip, None)`. -/
theorem c10_parser_totality :
    (∀ s : String, (pySplit s.data ['\r', '\n', '\r', '\n']).length = 1 →
      parse_sdp_response s = (none, none)) ∧
    (∀ lines : List (List Char),
      (∀ l ∈ lines, ("c=IN IP4 ".data).isPrefixOf l = false ∧
        ("m=audio ".data).isPrefixOf l = false) →
      ∀ ip : Option (List Char), ∀ port : Option Int,
        sdpLoop lines ip port = (ip, port)) ∧
    parse_sdp_response "X\r\n\r\nc=IN IP4 1.2.3.4\r\nm=audio abc RTP" =
      (none, none) ∧
    parse_sdp_response "no separator" = (none, none) := by
  refine ⟨?_, ?_, by decide, by decide⟩
  · intro s hs
    unfold parse_sdp_response
    rcases hsp : pySplit s.data ['\r', '\n', '\r', '\n'] with _ | ⟨a, _ | ⟨b, t⟩⟩
    · rfl
    · rfl
    · rw [hsp] at hs
      simp at hs
  · intro lines
    induction lines with
    | nil => intro _ ip port; rfl
    | cons l rest ih =>
      intro h ip port
      have hl := h l (List.mem_cons_self l rest)
      unfold sdpLoop
      simp only [hl.1, hl.2, Bool.false_eq_true, if_false]
      exact ih (fun x hx => h x (List.mem_cons_of_mem l hx)) ip port

/-- C10 witness: totality at inputs without separator and a loop run
over lines with no SDP fields. -/
theorem c10_parser_totality_witness :
    parse_sdp_response "abc" = (none, none) ∧
    sdpLoop ["v=0".data, "s=-".data] (some "9.9.9.9".data) (some 5) =
      (some "9.9.9.9".data, some 5) :=
  ⟨c10_parser_totality.1 "abc" (by decide),
   c10_parser_totality.2.1 ["v=0".data, "s=-".data] (by decide) _ _⟩

end Ravox
